import Mathlib

/-!
Shallow embedding of the MesmerGlass Android VR native client
(frame_decoder.cpp, stereo_renderer.cpp, vr_renderer.cpp), with theorems
settling the specification claims about it.
-/

namespace MesmerGlass

/-! ### frame_decoder.cpp -/

/-- Largest value of a C `int` (32-bit signed). -/
def int32Max : Int := 2147483647

/-- Smallest value of a C `int` (32-bit signed). -/
def int32Min : Int := -2147483648

/-- A multiplication of two C `int` values: signed overflow is undefined
behavior in C++, modelled as `none`. -/
def intMul32 (a b : Int) : Option Int :=
  if int32Min ≤ a * b ∧ a * b ≤ int32Max then some (a * b) else none

/-- The expression `width * height * 3` as the C++ evaluates it, with both
multiplications in 32-bit signed `int` arithmetic. -/
def bufferBytes (w h : Int) : Option Int := do
  let p ← intMul32 w h
  intMul32 p 3

/-- The element count handed to `rgbBuffer.resize(width * height * 3)`.
`resize` takes a `size_t`; a negative `int` converts to an enormous count and
`std::vector::resize` then throws, and an overflowing product is undefined
behavior, so both are modelled as `none`. -/
def resizeCount (w h : Int) : Option Nat :=
  match bufferBytes w h with
  | some n => if 0 ≤ n then some n.toNat else none
  | none => none

/-- State of a `FrameDecoder` object: its `width`/`height` fields and the
current size of its `rgbBuffer` scratch vector. -/
structure FrameDecoder where
  width : Int
  height : Int
  rgbBufferSize : Nat
  deriving DecidableEq, Repr

/-- The `FrameDecoder(int w = 1024, int h = 1024)` constructor: stores the
dimensions and resizes `rgbBuffer` to `width * height * 3`. -/
def FrameDecoder.init (w h : Int) : Option FrameDecoder :=
  (resizeCount w h).map fun n => ⟨w, h, n⟩

/-- `FrameDecoder::setDimensions(int w, int h)`: overwrites the dimensions and
resizes `rgbBuffer` to `width * height * 3`. -/
def FrameDecoder.setDimensions (d : FrameDecoder) (w h : Int) : Option FrameDecoder :=
  (resizeCount w h).map fun n => ⟨w, h, n⟩

/-- `FrameDecoder::decodeJPEG(const uint8_t* jpegData, int jpegSize, uint8_t* outRGB)`:
the body only logs the byte count and returns `true`; the line that would write
into `outRGB` is commented out, so the output buffer is returned untouched and
no failure is ever reported. The buffer behind `outRGB` is modelled as the byte
list passed in and returned. -/
def FrameDecoder.decodeJPEG (d : FrameDecoder) (jpegData outRGB : List Nat) :
    Bool × List Nat :=
  (true, outRGB)

/-- `FrameDecoder::uploadToTexture(GLuint texture, const uint8_t* rgbData)`:
binds `texture` and calls `glTexImage2D`, which reads exactly
`width * height * 3` bytes from `rgbData` — an out-of-bounds read (undefined
behavior, modelled as `none`) when fewer bytes are provided. It then returns
`false` exactly when `glGetError` reports an error; `glFail` stands for the GL
implementation reporting such an error, in which case the GL specification
leaves the texture contents unchanged. Note the function receives no size for
`rgbData` and performs no size validation of its own. -/
def FrameDecoder.uploadToTexture (d : FrameDecoder) (texture rgbData : List Nat)
    (glFail : Bool) : Option (Bool × List Nat) :=
  let need := (d.width * d.height * 3).toNat
  if rgbData.length < need then none
  else if glFail then some (false, texture)
  else some (true, rgbData.take need)

/-! ### stereo_renderer.cpp -/

/-- A `glViewport(x, y, w, h)` rectangle. -/
structure EyeViewport where
  x : Int
  y : Int
  w : Int
  h : Int
  deriving DecidableEq, Repr

/-- State of a `StereoRenderer` object. -/
structure StereoRenderer where
  viewportWidth : Int
  viewportHeight : Int
  deriving DecidableEq, Repr

/-- `StereoRenderer::setViewport(int width, int height)`. -/
def StereoRenderer.setViewport (s : StereoRenderer) (width height : Int) :
    StereoRenderer :=
  ⟨width, height⟩

/-- `StereoRenderer::setupLeftEye()`:
`glViewport(0, 0, viewportWidth / 2, viewportHeight)`. C `int` division
truncates toward zero, which is `Int.tdiv`. -/
def StereoRenderer.setupLeftEye (s : StereoRenderer) : EyeViewport :=
  ⟨0, 0, Int.tdiv s.viewportWidth 2, s.viewportHeight⟩

/-- `StereoRenderer::setupRightEye()`:
`glViewport(viewportWidth / 2, 0, viewportWidth / 2, viewportHeight)`. -/
def StereoRenderer.setupRightEye (s : StereoRenderer) : EyeViewport :=
  ⟨Int.tdiv s.viewportWidth 2, 0, Int.tdiv s.viewportWidth 2, s.viewportHeight⟩

/-- The horizontal pixel columns a viewport rectangle occupies. -/
def EyeViewport.coversX (v : EyeViewport) (px : Int) : Prop :=
  v.x ≤ px ∧ px < v.x + v.w

instance (v : EyeViewport) (px : Int) : Decidable (v.coversX px) := by
  unfold EyeViewport.coversX
  infer_instance

/-! ### vr_renderer.cpp -/

/-- An image presented as a pixel function: arguments are column `x`, row `y`
and channel (0 = red, 1 = green, 2 = blue), the result is the byte value. -/
def Image := Nat → Nat → Nat → Nat

/-- The synthetic 1024×1024 test pattern that `VRRenderer::updateTexture`
builds: `(x * 255) / texWidth` red gradient, `(y * 255) / texHeight` green
gradient, constant 128 blue. -/
def testPattern : Image := fun x y c =>
  if c = 0 then (x * 255) / 1024
  else if c = 1 then (y * 255) / 1024
  else 128

/-- A solid red RGB image. -/
def solidRed : Image := fun _ _ c => if c = 0 then 255 else 0

/-- A solid blue RGB image. -/
def solidBlue : Image := fun _ _ c => if c = 2 then 255 else 0

/-- Row-major packed RGB byte stream of a `w × h` image, the form in which a
frame crosses the JNI boundary. -/
def imageBytes (img : Image) (w h : Nat) : List Nat :=
  (List.range (w * h * 3)).map fun i => img ((i / 3) % w) (i / 3 / w) (i % 3)

/-- The GL texture object store: texture id to current contents. -/
def GLTextures := Nat → Image

/-- Replacing the contents of one texture id in the store, as `glTexImage2D`
on the currently bound texture does. -/
def updTex (store : GLTextures) (id : Nat) (img : Image) : GLTextures :=
  fun j => if j = id then img else store j

/-- GL / EGL operations issued by the renderer, recorded as a trace.
`initializeEGLRun` and `initializeResourcesRun` abbreviate the call sequences
inside `VRRenderer::initializeEGL` and `VRRenderer::initialize`, whose
internals no claim concerns. -/
inductive Action where
  | glClearColor (r g b a : Rat)
  | glClear (color depth : Bool)
  | glGetError
  | eglSwapBuffers
  | glViewport (x y w h : Int)
  | glActiveTexture0
  | glBindTexture (id : Nat)
  | glUniform1i (v : Int)
  | glDrawArrays (first count : Nat)
  | glTexImage2D (id w h : Nat)
  | glDeleteVertexArrays (id : Nat)
  | glDeleteBuffers (id : Nat)
  | glDeleteTextures (id : Nat)
  | glDeleteProgram (id : Nat)
  | eglMakeCurrentNone
  | eglDestroyContext
  | eglDestroySurface
  | eglTerminate
  | releaseWindow
  | deleteRenderer
  | initializeEGLRun
  | initializeResourcesRun
  deriving DecidableEq, Repr

/-- State of a `VRRenderer` object. EGL handles and the window pointer are
modelled by liveness flags (`true` iff the handle differs from
`EGL_NO_DISPLAY` / `EGL_NO_SURFACE` / `EGL_NO_CONTEXT` / `nullptr`); GL object
names are `Nat` ids with 0 meaning none; `renderTime` (a C `float`) is kept as
a rational, which no claim depends on. -/
structure VRRenderer where
  displayLive : Bool
  surfaceLive : Bool
  contextLive : Bool
  windowLive : Bool
  shaderProgram : Nat
  vao : Nat
  vbo : Nat
  leftEyeTexture : Nat
  rightEyeTexture : Nat
  currentEyeTexture : Nat
  viewportWidth : Int
  viewportHeight : Int
  renderTime : Rat
  deriving DecidableEq, Repr

/-- The `VRRenderer()` constructor initializer list: everything null / zero. -/
def freshRenderer : VRRenderer :=
  ⟨false, false, false, false, 0, 0, 0, 0, 0, 0, 0, 0, 0⟩

/-- Success flags for each EGL step of `initializeEGL`, standing for the EGL
implementation's responses. -/
structure EGLOutcome where
  getDisplayOk : Bool
  initOk : Bool
  chooseConfigOk : Bool
  createSurfaceOk : Bool
  createContextOk : Bool
  makeCurrentOk : Bool
  deriving DecidableEq, Repr

/-- `VRRenderer::initializeEGL(ANativeWindow*)`: stores the window pointer,
then walks the EGL setup chain, returning `false` at the first failing step
and leaving the handles acquired so far set (there is no rollback in the
source). `windowNonNull` models whether the passed window pointer is null. -/
def VRRenderer.initializeEGL (r : VRRenderer) (windowNonNull : Bool)
    (oc : EGLOutcome) : VRRenderer × Bool :=
  let r0 := { r with windowLive := windowNonNull }
  if oc.getDisplayOk = false then (r0, false)
  else
    let r1 := { r0 with displayLive := true }
    if oc.initOk = false then (r1, false)
    else if oc.chooseConfigOk = false then (r1, false)
    else if oc.createSurfaceOk = false then (r1, false)
    else
      let r2 := { r1 with surfaceLive := true }
      if oc.createContextOk = false then (r2, false)
      else
        let r3 := { r2 with contextLive := true }
        if oc.makeCurrentOk = false then (r3, false)
        else (r3, true)

/-- GL object ids produced while `VRRenderer::initialize` runs, standing for
the GL implementation; a `shaderProgram` of 0 models
`createShaderProgram` failing. -/
structure InitOutcome where
  shaderProgram : Nat
  vao : Nat
  vbo : Nat
  leftTexture : Nat
  rightTexture : Nat
  deriving DecidableEq, Repr

/-- `VRRenderer::initialize()`: creates the shader program (returning `false`
when that yields id 0), then the vao/vbo full-screen geometry and the two eye
textures. -/
def VRRenderer.initializeResources (r : VRRenderer) (oc : InitOutcome) :
    VRRenderer × Bool :=
  if oc.shaderProgram = 0 then ({ r with shaderProgram := 0 }, false)
  else
    ({ r with
        shaderProgram := oc.shaderProgram
        vao := oc.vao
        vbo := oc.vbo
        leftEyeTexture := oc.leftTexture
        rightEyeTexture := oc.rightTexture }, true)

/-- `VRRenderer::setViewport(int width, int height)`: stores the dimensions;
the per-eye log line is its only other effect. -/
def VRRenderer.setViewport (r : VRRenderer) (width height : Int) : VRRenderer :=
  { r with viewportWidth := width, viewportHeight := height }

/-- `VRRenderer::renderFrame()`: returns (after a log line) when the window is
null or any of display/surface/context is dead; otherwise advances
`renderTime`, clears to opaque magenta, checks `glGetError`, and swaps
buffers. Note the body issues no per-eye viewport, bind, or draw call; the
static `frameCount` log has no modelled effect. -/
def VRRenderer.renderFrame (r : VRRenderer) : VRRenderer × List Action :=
  if r.windowLive = false then (r, [])
  else if r.displayLive = false ∨ r.surfaceLive = false ∨ r.contextLive = false then
    (r, [])
  else
    ({ r with renderTime := r.renderTime + 0.016 },
     [Action.glClearColor 1 0 1 1, Action.glClear true true, Action.glGetError,
      Action.eglSwapBuffers])

/-- `VRRenderer::renderEye(GLuint, int, int, int, int)`: sets the viewport to
the given rectangle, binds the eye texture on unit 0, sets the sampler
uniform, and draws the full-screen triangle. (No caller in the source ever
invokes it.) -/
def VRRenderer.renderEye (r : VRRenderer) (eyeTexture : Nat) (x y w h : Int) :
    List Action :=
  [Action.glViewport x y w h, Action.glActiveTexture0,
   Action.glBindTexture eyeTexture, Action.glUniform1i 0,
   Action.glDrawArrays 0 3]

/-- `VRRenderer::updateTexture(const uint8_t*, int, const uint8_t*, int)`:
ignores both received byte buffers, builds the 1024×1024 gradient
`testPattern`, and uploads that same pattern to the left and then the right
eye texture, finally unbinding. -/
def VRRenderer.updateTexture (r : VRRenderer) (store : GLTextures)
    (leftData rightData : List Nat) : GLTextures × List Action :=
  let store1 := updTex store r.leftEyeTexture testPattern
  let store2 := updTex store1 r.rightEyeTexture testPattern
  (store2,
   [Action.glBindTexture r.leftEyeTexture,
    Action.glTexImage2D r.leftEyeTexture 1024 1024,
    Action.glBindTexture r.rightEyeTexture,
    Action.glTexImage2D r.rightEyeTexture 1024 1024,
    Action.glBindTexture 0])

/-- `VRRenderer::cleanup()`: deletes each GL object whose id is nonzero, then
tears down EGL (make-current to nothing, destroy context and surface when
live, terminate) when the display is live, and releases the window when set. -/
def VRRenderer.cleanup (r : VRRenderer) : List Action :=
  (if r.vao ≠ 0 then [Action.glDeleteVertexArrays r.vao] else []) ++
  (if r.vbo ≠ 0 then [Action.glDeleteBuffers r.vbo] else []) ++
  (if r.leftEyeTexture ≠ 0 then [Action.glDeleteTextures r.leftEyeTexture] else []) ++
  (if r.rightEyeTexture ≠ 0 then [Action.glDeleteTextures r.rightEyeTexture] else []) ++
  (if r.shaderProgram ≠ 0 then [Action.glDeleteProgram r.shaderProgram] else []) ++
  (if r.displayLive then
    [Action.eglMakeCurrentNone] ++
    (if r.contextLive then [Action.eglDestroyContext] else []) ++
    (if r.surfaceLive then [Action.eglDestroySurface] else []) ++
    [Action.eglTerminate]
   else []) ++
  (if r.windowLive then [Action.releaseWindow] else [])

/-! JNI entry points. The process-wide `static VRRenderer* g_renderer` is the
`Option VRRenderer`; each export returns the new global state together with
the trace of operations it caused. -/

/-- `nativeOnCreate`: unconditionally installs a fresh renderer in the global
pointer (a previous one, if any, is leaked, as in the source). -/
def nativeOnCreate (g : Option VRRenderer) : Option VRRenderer × List Action :=
  (some freshRenderer, [])

/-- `nativeOnDestroy`: when a renderer exists, runs `cleanup`, deletes it and
nulls the global pointer; otherwise does nothing. -/
def nativeOnDestroy (g : Option VRRenderer) : Option VRRenderer × List Action :=
  match g with
  | none => (none, [])
  | some r => (none, r.cleanup ++ [Action.deleteRenderer])

/-- `nativeOnSurfaceCreated`: when a renderer exists, obtains the native
window and runs `initializeEGL` then `initialize`, ignoring both return
values as the source does. -/
def nativeOnSurfaceCreated (g : Option VRRenderer) (windowNonNull : Bool)
    (eo : EGLOutcome) (ro : InitOutcome) : Option VRRenderer × List Action :=
  match g with
  | none => (none, [])
  | some r =>
    let r1 := (r.initializeEGL windowNonNull eo).1
    let r2 := (r1.initializeResources ro).1
    (some r2, [Action.initializeEGLRun, Action.initializeResourcesRun])

/-- `nativeOnSurfaceChanged`: forwards to `setViewport` when a renderer
exists. -/
def nativeOnSurfaceChanged (g : Option VRRenderer) (width height : Int) :
    Option VRRenderer × List Action :=
  match g with
  | none => (none, [])
  | some r => (some (r.setViewport width height), [])

/-- `nativeOnDrawFrame`: forwards to `renderFrame` when a renderer exists. -/
def nativeOnDrawFrame (g : Option VRRenderer) : Option VRRenderer × List Action :=
  match g with
  | none => (none, [])
  | some r => (some (r.renderFrame).1, (r.renderFrame).2)

/-- `nativeUpdateTexture`: when a renderer exists, acquires the two byte
arrays, forwards to `updateTexture`, and releases them; the GL texture store
is threaded through explicitly. -/
def nativeUpdateTexture (g : Option VRRenderer) (store : GLTextures)
    (leftData rightData : List Nat) :
    Option VRRenderer × GLTextures × List Action :=
  match g with
  | none => (none, store, [])
  | some r =>
    let u := r.updateTexture store leftData rightData
    (some r, u.1, u.2)

/-- An action that would constitute drawing into an eye's sub-viewport:
a viewport change, a texture bind, or a draw call. -/
def isEyeDrawStep : Action → Bool
  | Action.glViewport _ _ _ _ => true
  | Action.glBindTexture _ => true
  | Action.glDrawArrays _ _ => true
  | _ => false

/-! ### Theorems settling the claims -/

/-- Claim C1: the claim fails on the code. `updateTexture` ignores both
uploaded images and stores the same synthetic gradient `testPattern` in both
eye textures, so after uploading solid red to LEFT and solid blue to RIGHT the
stored pixel data is not bit-identical to either upload (already at pixel
column 1, row 0, the red channel holds 0 instead of 255) and both eyes hold
identical contents. -/
theorem C1_updateTexture_ignores_uploads (r : VRRenderer) (store : GLTextures) :
    ((r.updateTexture store (imageBytes solidRed 1024 1024)
        (imageBytes solidBlue 1024 1024)).1 r.leftEyeTexture = testPattern) ∧
    ((r.updateTexture store (imageBytes solidRed 1024 1024)
        (imageBytes solidBlue 1024 1024)).1 r.rightEyeTexture = testPattern) ∧
    testPattern 1 0 0 = 0 ∧ solidRed 1 0 0 = 255 ∧
    testPattern 0 0 2 = 128 ∧ solidBlue 0 0 2 = 255 := by
  refine ⟨?_, ?_, rfl, rfl, rfl, rfl⟩
  · by_cases hLR : r.leftEyeTexture = r.rightEyeTexture <;>
      simp [VRRenderer.updateTexture, updTex, hLR]
  · simp [VRRenderer.updateTexture, updTex]

/-- Claim C2: the claimed draw sequence fails on the code. In a fully live
state `renderFrame` only sets the clear color, clears, checks the error flag
and swaps buffers; its trace contains no per-eye viewport, texture-bind or
draw step. -/
theorem C2_renderFrame_clears_and_swaps_only (r : VRRenderer)
    (h : r.windowLive = true ∧ r.displayLive = true ∧ r.surfaceLive = true ∧
      r.contextLive = true) :
    ((r.renderFrame).2 = [Action.glClearColor 1 0 1 1, Action.glClear true true,
        Action.glGetError, Action.eglSwapBuffers]) ∧
    ((r.renderFrame).2.all fun a => !(isEyeDrawStep a)) = true := by
  obtain ⟨hw, hd, hs, hc⟩ := h
  have ht : (r.renderFrame).2 = [Action.glClearColor 1 0 1 1,
      Action.glClear true true, Action.glGetError, Action.eglSwapBuffers] := by
    simp [VRRenderer.renderFrame, hw, hd, hs, hc]
  refine ⟨ht, ?_⟩
  rw [ht]
  decide

/-- Witness for C2 at a concrete fully live renderer. -/
theorem C2_witness :
    ((VRRenderer.mk true true true true 7 1 2 3 4 0 0 0 0).windowLive = true ∧
     (VRRenderer.mk true true true true 7 1 2 3 4 0 0 0 0).displayLive = true ∧
     (VRRenderer.mk true true true true 7 1 2 3 4 0 0 0 0).surfaceLive = true ∧
     (VRRenderer.mk true true true true 7 1 2 3 4 0 0 0 0).contextLive = true) ∧
    ((((VRRenderer.mk true true true true 7 1 2 3 4 0 0 0 0).renderFrame).2 =
       [Action.glClearColor 1 0 1 1, Action.glClear true true, Action.glGetError,
        Action.eglSwapBuffers]) ∧
     ((((VRRenderer.mk true true true true 7 1 2 3 4 0 0 0 0).renderFrame).2.all
        fun a => !(isEyeDrawStep a)) = true)) :=
  ⟨⟨rfl, rfl, rfl, rfl⟩,
   C2_renderFrame_clears_and_swaps_only
     (VRRenderer.mk true true true true 7 1 2 3 4 0 0 0 0) ⟨rfl, rfl, rfl, rfl⟩⟩

/-- Claim C3: the claim fails on the code. `decodeJPEG` on empty (zero-length)
input returns `true` — success — with the output buffer untouched; no
DecodeError is ever signalled. -/
theorem C3_decode_empty_input_reports_success (d : FrameDecoder)
    (outRGB : List Nat) :
    d.decodeJPEG [] outRGB = (true, outRGB) := rfl

/-- Claim C4 (amended): after `setViewport(width, height)` with `width ≥ 0`,
the left eye rectangle is `⟨0, 0, width / 2, height⟩` and the right eye
rectangle is `⟨width / 2, 0, width / 2, height⟩` — the right width is
`width / 2`, not `width − width / 2`; the rectangles are disjoint and their
union covers exactly the columns `[0, 2 * (width / 2))`, which is all of
`[0, width)` precisely when `width` is even. -/
theorem C4_viewport_halves (s : StereoRenderer) (width height px : Int)
    (hW : 0 ≤ width) :
    (s.setViewport width height).setupLeftEye =
      ⟨0, 0, Int.tdiv width 2, height⟩ ∧
    (s.setViewport width height).setupRightEye =
      ⟨Int.tdiv width 2, 0, Int.tdiv width 2, height⟩ ∧
    ¬((s.setViewport width height).setupLeftEye.coversX px ∧
      (s.setViewport width height).setupRightEye.coversX px) ∧
    (((s.setViewport width height).setupLeftEye.coversX px ∨
      (s.setViewport width height).setupRightEye.coversX px) ↔
      (0 ≤ px ∧ px < 2 * Int.tdiv width 2)) ∧
    (width % 2 = 0 → 2 * Int.tdiv width 2 = width) := by
  have hdiv : Int.tdiv width 2 = width / 2 := Int.tdiv_eq_ediv hW (by norm_num)
  refine ⟨rfl, rfl, ?_, ?_, ?_⟩ <;>
    simp [StereoRenderer.setViewport, StereoRenderer.setupLeftEye,
      StereoRenderer.setupRightEye, EyeViewport.coversX, hdiv] <;>
    omega

/-- Witness for C4 at width 4, height 2, column 1. -/
theorem C4_witness :
    (0 : Int) ≤ 4 ∧
    (((StereoRenderer.mk 0 0).setViewport 4 2).setupLeftEye =
       ⟨0, 0, Int.tdiv 4 2, 2⟩ ∧
     ((StereoRenderer.mk 0 0).setViewport 4 2).setupRightEye =
       ⟨Int.tdiv 4 2, 0, Int.tdiv 4 2, 2⟩ ∧
     ¬(((StereoRenderer.mk 0 0).setViewport 4 2).setupLeftEye.coversX 1 ∧
       ((StereoRenderer.mk 0 0).setViewport 4 2).setupRightEye.coversX 1) ∧
     ((((StereoRenderer.mk 0 0).setViewport 4 2).setupLeftEye.coversX 1 ∨
       ((StereoRenderer.mk 0 0).setViewport 4 2).setupRightEye.coversX 1) ↔
       ((0 : Int) ≤ 1 ∧ (1 : Int) < 2 * Int.tdiv 4 2)) ∧
     ((4 : Int) % 2 = 0 → 2 * Int.tdiv 4 2 = 4)) :=
  ⟨by decide, C4_viewport_halves (StereoRenderer.mk 0 0) 4 2 1 (by decide)⟩

/-- Counterexample for C4 as stated, at odd width 3: the right eye rectangle
has width 1, not `3 − 3 / 2 = 2`, and column 2 is covered by neither eye, so
the union does not cover `[0, 3)`. -/
theorem C4_counterexample :
    ((StereoRenderer.mk 0 0).setViewport 3 2).setupRightEye.w = 1 ∧
    (3 : Int) - Int.tdiv 3 2 = 2 ∧
    ¬(((StereoRenderer.mk 0 0).setViewport 3 2).setupLeftEye.coversX 2 ∨
      ((StereoRenderer.mk 0 0).setViewport 3 2).setupRightEye.coversX 2) := by
  decide

/-- Claim C5: the claim fails on the code. For every input — valid JPEG or
not — `decodeJPEG` reports success and leaves the output buffer exactly as it
was, producing no decoded image at all, let alone one of width×height×3
bytes. -/
theorem C5_decode_produces_no_image (d : FrameDecoder)
    (jpegData outRGB : List Nat) :
    (d.decodeJPEG jpegData outRGB).1 = true ∧
    (d.decodeJPEG jpegData outRGB).2 = outRGB :=
  ⟨rfl, rfl⟩

/-- Claim C6 (amended): `uploadToTexture` returns failure exactly when the
graphics call reports an error; it performs no size validation of its own
(it receives no size), and on a reported error the previous texture contents
are retained. Stated for inputs long enough that the fixed-size read by
`glTexImage2D` stays in bounds. -/
theorem C6_upload_fails_iff_gl_error (d : FrameDecoder)
    (texture rgbData : List Nat) (glFail : Bool)
    (hlen : (d.width * d.height * 3).toNat ≤ rgbData.length) :
    d.uploadToTexture texture rgbData glFail =
      some (if glFail then (false, texture)
            else (true, rgbData.take (d.width * d.height * 3).toNat)) := by
  unfold FrameDecoder.uploadToTexture
  rw [if_neg (by omega)]
  cases glFail <;> simp

/-- Witness for C6: a reported GL error yields failure with the texture
retained. -/
theorem C6_witness :
    (((FrameDecoder.mk 1 1 3).width * (FrameDecoder.mk 1 1 3).height * 3).toNat ≤
      ([1, 2, 3] : List Nat).length) ∧
    (FrameDecoder.mk 1 1 3).uploadToTexture [9, 9, 9] [1, 2, 3] true =
      some (false, [9, 9, 9]) := by
  refine ⟨by decide, ?_⟩
  have h := C6_upload_fails_iff_gl_error (FrameDecoder.mk 1 1 3) [9, 9, 9]
    [1, 2, 3] true (by decide)
  simpa using h

/-- Counterexample for C6 as stated: a 6-byte image for a 1×1 RGB texture
(3 bytes) mismatches the texture dimensions, yet with no GL error the upload
returns success, not UploadError. -/
theorem C6_counterexample :
    ([1, 2, 3, 4, 5, 6] : List Nat).length ≠
      ((FrameDecoder.mk 1 1 3).width * (FrameDecoder.mk 1 1 3).height * 3).toNat ∧
    (FrameDecoder.mk 1 1 3).uploadToTexture [9, 9, 9] [1, 2, 3, 4, 5, 6] false =
      some (true, [1, 2, 3]) := by
  decide

/-- Claim C7: confirmed. Whenever the window pointer or any of the
display/surface/context handles is not live — in particular before
`attachSurface` ran — `renderFrame` returns leaving the state unchanged and
issuing no GL action at all: no drawing and no buffer swap. -/
theorem C7_renderFrame_needs_live_context (r : VRRenderer)
    (h : ¬(r.windowLive = true ∧ r.displayLive = true ∧ r.surfaceLive = true ∧
      r.contextLive = true)) :
    r.renderFrame = (r, []) := by
  cases hw : r.windowLive <;> cases hd : r.displayLive <;>
    cases hs : r.surfaceLive <;> cases hc : r.contextLive <;>
      simp_all [VRRenderer.renderFrame]

/-- Witness for C7 at the freshly constructed renderer, whose handles are all
dead. -/
theorem C7_witness :
    ¬(freshRenderer.windowLive = true ∧ freshRenderer.displayLive = true ∧
      freshRenderer.surfaceLive = true ∧ freshRenderer.contextLive = true) ∧
    freshRenderer.renderFrame = (freshRenderer, []) :=
  ⟨by decide, C7_renderFrame_needs_live_context freshRenderer (by decide)⟩

/-- Claim C8: confirmed. From any global state, `nativeOnDestroy` leaves the
global pointer null, and calling it again from that torn-down state performs
no action at all — no second release of any resource — and leaves the state
unchanged. -/
theorem C8_destroy_idempotent (g : Option VRRenderer) :
    (nativeOnDestroy g).1 = none ∧
    nativeOnDestroy (nativeOnDestroy g).1 = (none, ([] : List Action)) := by
  cases g <;> exact ⟨rfl, rfl⟩

/-- Claim C9: confirmed. Every lifecycle entry point other than
`nativeOnCreate` checks the global renderer pointer and, when it is null,
performs no renderer operation: the state stays null, the texture store is
untouched, and no action is issued. -/
theorem C9_null_renderer_noop (windowNonNull : Bool) (eo : EGLOutcome)
    (ro : InitOutcome) (width height : Int) (store : GLTextures)
    (leftData rightData : List Nat) :
    nativeOnDestroy none = (none, []) ∧
    nativeOnSurfaceCreated none windowNonNull eo ro = (none, []) ∧
    nativeOnSurfaceChanged none width height = (none, []) ∧
    nativeOnDrawFrame none = (none, []) ∧
    nativeUpdateTexture none store leftData rightData = (none, store, []) :=
  ⟨rfl, rfl, rfl, rfl, rfl⟩

/-- Claim C10 (amended): for positive dimensions whose product
`w * h * 3` stays within 32-bit `int` range, both the constructor and
`setDimensions` leave the scratch buffer sized exactly `w * h * 3`; for larger
dimensions the C `int` computation overflows (undefined behavior), so the
invariant cannot be established there. -/
theorem C10_scratch_buffer_invariant (d : FrameDecoder) (w h : Int)
    (hw : 0 < w) (hh : 0 < h) (hmax : w * h * 3 ≤ int32Max) :
    FrameDecoder.init w h = some ⟨w, h, (w * h * 3).toNat⟩ ∧
    d.setDimensions w h = some ⟨w, h, (w * h * 3).toNat⟩ := by
  have hwh : 0 < w * h := mul_pos hw hh
  unfold int32Max at hmax
  have e1 : intMul32 w h = some (w * h) := by
    unfold intMul32 int32Min int32Max
    exact if_pos ⟨by linarith, by linarith⟩
  have e2 : intMul32 (w * h) 3 = some (w * h * 3) := by
    unfold intMul32 int32Min int32Max
    exact if_pos ⟨by linarith, hmax⟩
  have hr : resizeCount w h = some (w * h * 3).toNat := by
    simp [resizeCount, bufferBytes, e1, e2]
    linarith
  constructor <;> simp [FrameDecoder.init, FrameDecoder.setDimensions, hr]

/-- Witness for C10 at dimensions 2×2 from the default 1024×1024 decoder
state. -/
theorem C10_witness :
    (0 : Int) < 2 ∧ (0 : Int) < 2 ∧ (2 * 2 * 3 : Int) ≤ int32Max ∧
    (FrameDecoder.init 2 2 = some ⟨2, 2, ((2 : Int) * 2 * 3).toNat⟩ ∧
     (FrameDecoder.mk 1024 1024 3145728).setDimensions 2 2 =
       some ⟨2, 2, ((2 : Int) * 2 * 3).toNat⟩) :=
  ⟨by decide, by decide, by decide,
   C10_scratch_buffer_invariant (FrameDecoder.mk 1024 1024 3145728) 2 2
     (by decide) (by decide) (by decide)⟩

/-- Counterexample for C10 as stated, at the positive dimensions 26755×26755:
`26755 * 26755 * 3 = 2147490075` exceeds the largest 32-bit `int`
(2147483647), the multiplication overflows, and `setDimensions` cannot
establish the invariant. -/
theorem C10_counterexample :
    (0 : Int) < 26755 ∧
    (FrameDecoder.mk 1024 1024 3145728).setDimensions 26755 26755 = none := by
  decide

end MesmerGlass
